import Mathlib

/-!
# Verification of the HazLabel GHS validation and label layout engine

Shallow embedding of `backend/validation.py` and the label rendering loop of
`backend/main.py` (`bulk_print_pdf`), with theorems settling the frozen claims
about the compliance validation engine and the layout engine.

Modelling conventions:
* Python `str` is `String`; Python lists are `List`; Python dicts used as
  ordered registries are association lists (`List (String × _)`), looked up
  with `List.lookup` (Python 3.7+ dicts preserve insertion order).
* `difflib.SequenceMatcher(...).ratio() >= 0.9` (an external stdlib fuzzy
  match) is abstracted as a boolean oracle `simOK`; every theorem below holds
  for all oracles, because the validator output does not depend on it.
* Python `re.match(r'^(H\d{3})', s.upper())` is embedded with ASCII digit and
  uppercase semantics (all registry codes are ASCII).
* Floating point arithmetic in the layout engine is embedded over `ℚ`; the
  claims proved here do not depend on IEEE rounding of the geometry.
-/

/-- Prefix test on character lists: does the second list start with the first? -/
def charsMatchAt : List Char → List Char → Bool
  | [], _ => true
  | _ :: _, [] => false
  | a :: as, b :: bs => a == b && charsMatchAt as bs

/-- Substring occurrence test on character lists (needle, then haystack). -/
def charsContain (needle : List Char) : List Char → Bool
  | [] => charsMatchAt needle []
  | b :: bs => charsMatchAt needle (b :: bs) || charsContain needle bs

/-- Python's `needle in hay` substring containment for strings. -/
def strContains (hay needle : String) : Bool :=
  charsContain needle.toList hay.toList

/-- Lexicographic order on character lists by code point, as Python compares
strings. -/
def lexLeChars : List Char → List Char → Bool
  | [], _ => true
  | _ :: _, [] => false
  | a :: as, b :: bs => if a = b then lexLeChars as bs else decide (a < b)

/-- Python string `<=`: lexicographic by code point. -/
def strLe (a b : String) : Bool :=
  lexLeChars a.toList b.toList

/-- Python `str.upper()` restricted to ASCII (all registry codes are ASCII).
Character-level so that it reduces inside the kernel. -/
def strUpper (s : String) : String :=
  String.mk (s.toList.map Char.toUpper)

/-- Python `str.lower()` restricted to ASCII, character-level. -/
def strLower (s : String) : String :=
  String.mk (s.toList.map Char.toLower)

/-- Drop leading whitespace from a character list. -/
def dropLeadWS : List Char → List Char
  | [] => []
  | c :: cs => if c.isWhitespace then dropLeadWS cs else c :: cs

/-- Python `str.strip()`: whitespace removed from both ends. -/
def strStrip (s : String) : String :=
  String.mk ((dropLeadWS (dropLeadWS s.toList.reverse).reverse))

/-- Split a character list at the first occurrence of a separator character:
the part before it, and (when the separator occurs) the part after it. -/
def splitFirst (sep : Char) : List Char → List Char × Option (List Char)
  | [] => ([], none)
  | c :: cs =>
    if c = sep then ([], some cs)
    else
      let r := splitFirst sep cs
      (c :: r.1, r.2)

/-- Embeds `re.match(r'^(H\d{3})', s.upper())`: an `H` followed by three
digits at the start of the uppercased string; returns the matched group.
`\d` is embedded as the ASCII digits (all registry codes are ASCII). -/
def extractHCode (s : String) : Option String :=
  match (strUpper s).toList with
  | c0 :: c1 :: c2 :: c3 :: _ =>
    if c0 = 'H' ∧ c1.isDigit ∧ c2.isDigit ∧ c3.isDigit then
      some (String.mk [c0, c1, c2, c3])
    else none
  | _ => none

/-- Embeds `stmt.split(":", 1)[0].strip().upper()`: the normalized code
before the first colon (the whole string when there is no colon). -/
def colonCode (stmt : String) : String :=
  strUpper (strStrip (String.mk (splitFirst ':' stmt.toList).1))

/-- Embeds the text after the first colon, stripped: `parts[1].strip()` from
`stmt.split(":", 1)`, or `""` when the statement has no colon. -/
def colonRest (stmt : String) : String :=
  match (splitFirst ':' stmt.toList).2 with
  | some rest => strStrip (String.mk rest)
  | none => ""

/-- `clean_h` extraction used by `validate_ghs_label` and
`suggest_pictograms_for_codes`: codes matching `^(H\d{3})` in order. -/
def cleanHCodes (stmts : List String) : List String :=
  stmts.filterMap extractHCode

/-- The `GHS_H_CODES` registry of `backend/validation.py` (UN GHS Rev 11). -/
def GHS_H_CODES : List (String × String) := [
  ("H200", "Unstable explosive"),
  ("H201", "Explosive; mass explosion hazard"),
  ("H202", "Explosive; severe projection hazard"),
  ("H203", "Explosive; fire, blast or projection hazard"),
  ("H204", "Fire or projection hazard"),
  ("H205", "May mass explode in fire"),
  ("H220", "Extremely flammable gas"),
  ("H221", "Flammable gas"),
  ("H222", "Extremely flammable aerosol"),
  ("H223", "Flammable aerosol"),
  ("H224", "Extremely flammable liquid and vapor"),
  ("H225", "Highly flammable liquid and vapor"),
  ("H226", "Flammable liquid and vapor"),
  ("H227", "Combustible liquid"),
  ("H228", "Flammable solid"),
  ("H229", "Pressurized container: may burst if heated"),
  ("H230", "May react explosively even in the absence of air"),
  ("H231", "May react explosively even in the absence of air at elevated pressure and/or temperature"),
  ("H240", "Heating may cause an explosion"),
  ("H241", "Heating may cause a fire or explosion"),
  ("H242", "Heating may cause a fire"),
  ("H250", "Catches fire spontaneously if exposed to air"),
  ("H251", "Self-heating; may catch fire"),
  ("H252", "Self-heating in large quantities; may catch fire"),
  ("H260", "In contact with water releases flammable gases which may ignite spontaneously"),
  ("H261", "In contact with water releases flammable gas"),
  ("H270", "May cause or intensify fire; oxidizer"),
  ("H271", "May cause fire or explosion; strong oxidizer"),
  ("H272", "May intensify fire; oxidizer"),
  ("H280", "Contains gas under pressure; may explode if heated"),
  ("H281", "Contains refrigerated gas; may cause cryogenic burns or injury"),
  ("H290", "May be corrosive to metals"),
  ("H300", "Fatal if swallowed"),
  ("H301", "Toxic if swallowed"),
  ("H302", "Harmful if swallowed"),
  ("H303", "May be harmful if swallowed"),
  ("H304", "May be fatal if swallowed and enters airways"),
  ("H305", "May be harmful if swallowed and enters airways"),
  ("H310", "Fatal in contact with skin"),
  ("H311", "Toxic in contact with skin"),
  ("H312", "Harmful in contact with skin"),
  ("H313", "May be harmful in contact with skin"),
  ("H314", "Causes severe skin burns and eye damage"),
  ("H315", "Causes skin irritation"),
  ("H316", "Causes mild skin irritation"),
  ("H317", "May cause an allergic skin reaction"),
  ("H318", "Causes serious eye damage"),
  ("H319", "Causes serious eye irritation"),
  ("H320", "Causes eye irritation"),
  ("H330", "Fatal if inhaled"),
  ("H331", "Toxic if inhaled"),
  ("H332", "Harmful if inhaled"),
  ("H333", "May be harmful if inhaled"),
  ("H334", "May cause allergy or asthma symptoms or breathing difficulties if inhaled"),
  ("H335", "May cause respiratory irritation"),
  ("H336", "May cause drowsiness or dizziness"),
  ("H340", "May cause genetic defects"),
  ("H341", "Suspected of causing genetic defects"),
  ("H350", "May cause cancer"),
  ("H351", "Suspected of causing cancer"),
  ("H360", "May damage fertility or the unborn child"),
  ("H361", "Suspected of damaging fertility or the unborn child"),
  ("H362", "May cause harm to breast-fed children"),
  ("H370", "Causes damage to organs"),
  ("H371", "May cause damage to organs"),
  ("H372", "Causes damage to organs through prolonged or repeated exposure"),
  ("H373", "May cause damage to organs through prolonged or repeated exposure"),
  ("H400", "Very toxic to aquatic life"),
  ("H401", "Toxic to aquatic life"),
  ("H402", "Harmful to aquatic life"),
  ("H410", "Very toxic to aquatic life with long lasting effects"),
  ("H411", "Toxic to aquatic life with long lasting effects"),
  ("H412", "Harmful to aquatic life with long lasting effects"),
  ("H413", "May cause long lasting harmful effects to aquatic life"),
  ("H420", "Harms public health and the environment by destroying ozone in the upper atmosphere")]

/-- Severity levels of `ValidationSeverity` (a Python `str` enum). -/
inductive ValidationSeverity where
  | info
  | warning
  | error
  | critical
deriving DecidableEq, Repr

/-- The `.value` string of a `ValidationSeverity` member. -/
def ValidationSeverity.value : ValidationSeverity → String
  | .info => "info"
  | .warning => "warning"
  | .error => "error"
  | .critical => "critical"

/-- The `ValidationIssue` dataclass. -/
structure ValidationIssue where
  code : String
  severity : ValidationSeverity
  message : String
  suggestion : Option String := none
deriving DecidableEq, Repr

/-- The `ValidationResult` dataclass. -/
structure ValidationResult where
  is_valid : Bool
  needs_review : Bool
  issues : List ValidationIssue
  validated_hazard_statements : List String
  validated_precautionary_statements : List String
  missing_p_codes : List String
  signal_word_valid : Bool
  suggested_signal_word : Option String
deriving DecidableEq, Repr

/-- Embeds `validate_hazard_statements`. The loop is rendered as structural
recursion; the aggregate `needs_review` flag is the disjunction of the
per-statement flags, matching the source's write-once-true accumulator.
`simOK official extracted` abstracts `difflib.SequenceMatcher(None, official,
extracted).ratio() >= 0.9` (called on lowercased texts, as in the source). -/
def validate_hazard_statements (simOK : String → String → Bool) :
    List String → List String × Bool
  | [] => ([], false)
  | stmt :: rest =>
    let r := validate_hazard_statements simOK rest
    let code := colonCode stmt
    match GHS_H_CODES.lookup code with
    | some official_text =>
      if simOK (strLower official_text) (strLower (colonRest stmt)) then
        ((code ++ ": " ++ official_text) :: r.1, r.2)
      else
        ((code ++ ": " ++ official_text) :: r.1, true)
    | none => (stmt :: r.1, true)

/-- The `critical_h` list of `validate_ghs_label`. -/
def critical_h : List String :=
  ["H300", "H310", "H330", "H314", "H318", "H340", "H350", "H360", "H370"]

/-- Embeds `validate_ghs_label`: hazard-statement validation, signal-word
resolution, and the H314/P280 mandatory-pairing check, aggregated into a
`ValidationResult` exactly as the source constructs it. The source appends
issues to a single list in this order: hazard-statement warning, signal-word
mismatch, missing P280. -/
def validate_ghs_label (simOK : String → String → Bool) (signal_word : String)
    (hazard_statements precautionary_statements _pictograms : List String) :
    ValidationResult :=
  let vh := validate_hazard_statements simOK hazard_statements
  let validated_h := vh.1
  let h_needs_review := vh.2
  let hazardIssues : List ValidationIssue :=
    if h_needs_review then
      [{ code := "HAZARD_STATEMENTS", severity := ValidationSeverity.warning,
         message := "Some hazard statements might be non-standard or misspelled",
         suggestion := some "Verify against GHS Rev 11" }]
    else []
  let clean_h := cleanHCodes validated_h
  let suggested_sw := if ∃ h ∈ clean_h, h ∈ critical_h then "Danger" else "Warning"
  let sw_valid : Bool := signal_word == suggested_sw
  let swIssues : List ValidationIssue :=
    if sw_valid then []
    else
      [{ code := "SIGNAL_WORD", severity := ValidationSeverity.critical,
         message := "Signal word should be '" ++ suggested_sw ++
           "' based on hazards, found '" ++ signal_word ++ "'",
         suggestion := some ("Change signal word to " ++ suggested_sw) }]
  let h314Missing : Prop :=
    "H314" ∈ clean_h ∧ ¬ precautionary_statements.any (fun p => strContains p "P280")
  let missing_p : List String := if h314Missing then ["P280"] else []
  let h314Issues : List ValidationIssue :=
    if h314Missing then
      [{ code := "H314", severity := ValidationSeverity.error,
         message := "Corrosive hazard H314 requires P280 (protective equipment)",
         suggestion := some "Add P280" }]
    else []
  let issues := hazardIssues ++ swIssues ++ h314Issues
  { is_valid := !(issues.any (fun i => i.severity == ValidationSeverity.error)),
    needs_review := h_needs_review || decide (issues.length > 0),
    issues := issues,
    validated_hazard_statements := validated_h,
    validated_precautionary_statements := precautionary_statements,
    missing_p_codes := missing_p,
    signal_word_valid := sw_valid,
    suggested_signal_word := some suggested_sw }

/-- The `PICTOGRAM_H_CODE_MAP` registry: pictogram identifier to the hazard
codes that imply it, in the source's insertion order. -/
def PICTOGRAM_H_CODE_MAP : List (String × List String) := [
  ("GHS01", ["H200", "H201", "H202", "H203", "H204", "H205", "H240", "H241"]),
  ("GHS02", ["H220", "H221", "H222", "H223", "H224", "H225", "H226", "H227", "H228", "H241",
             "H242", "H250", "H251", "H252", "H260", "H261"]),
  ("GHS03", ["H270", "H271", "H272"]),
  ("GHS04", ["H280", "H281"]),
  ("GHS05", ["H290", "H314", "H318"]),
  ("GHS06", ["H300", "H301", "H310", "H311", "H330", "H331"]),
  ("GHS07", ["H302", "H312", "H315", "H317", "H319", "H332", "H335", "H336"]),
  ("GHS08", ["H304", "H334", "H340", "H341", "H350", "H351", "H360", "H361", "H370", "H371",
             "H372", "H373"]),
  ("GHS09", ["H400", "H410", "H411", "H420"])]

/-- The pictograms triggered by a cleaned hazard-code list: the set build
`for code in clean_codes: for pictogram, h_code_list in MAP.items(): if code
in h_code_list: suggested.add(pictogram)`, represented as the (duplicate-free,
key-ordered) list of map keys whose code list meets `clean`. -/
def suggestedFromClean (clean : List String) : List String :=
  (PICTOGRAM_H_CODE_MAP.filter (fun pr => clean.any (fun c => pr.2.contains c))).map Prod.fst

/-- Rule 1 of `suggest_pictograms_for_codes`: if GHS06 (skull and crossbones)
is present together with GHS07 (exclamation mark), discard GHS07. -/
def pictRule1 (sug : List String) : List String :=
  if "GHS06" ∈ sug ∧ "GHS07" ∈ sug then sug.erase "GHS07" else sug

/-- The `ghs07_only_irritation` condition of rule 2: every cleaned code that
lies in the GHS07 row of the map is one of H315/H319/H320. -/
abbrev ghs07OnlyIrritation (clean : List String) : Prop :=
  ∀ c ∈ clean, c ∈ (PICTOGRAM_H_CODE_MAP.lookup "GHS07").getD [] → c ∈ ["H315", "H319", "H320"]

/-- Rule 2: if GHS05 (corrosion) is present together with GHS07, and GHS07 is
only triggered by skin/eye irritation codes, and a severe skin/eye code
(H314/H318) is present, discard GHS07. -/
def pictRule2 (clean sug : List String) : List String :=
  if "GHS05" ∈ sug ∧ "GHS07" ∈ sug then
    if ghs07OnlyIrritation clean then
      if ∃ c ∈ clean, c ∈ ["H314", "H318"] then sug.erase "GHS07" else sug
    else sug
  else sug

/-- Rule 3: if GHS08 (health hazard) is present together with GHS07, discard
GHS07 unless one of H302/H312/H332/H336 still needs it. -/
def pictRule3 (clean sug : List String) : List String :=
  if "GHS08" ∈ sug ∧ "GHS07" ∈ sug then
    if ¬ (∃ c ∈ clean, c ∈ ["H302", "H312", "H332", "H336"]) then sug.erase "GHS07" else sug
  else sug

/-- Embeds `suggest_pictograms_for_codes`: clean the codes, union the implied
pictograms, apply the three precedence rules in order, and return
`sorted(list(suggested))`. -/
def suggest_pictograms_for_codes (h_codes : List String) : List String :=
  let clean := cleanHCodes h_codes
  (pictRule3 clean (pictRule2 clean (pictRule1 (suggestedFromClean clean)))).insertionSort
    (fun a b => strLe a b = true)

/-- All pictograms whose map row contains the given cleaned code: the code's
pictogram mappings (used to state what a code's *sole* mapping is). -/
def pictogramsFor (code : String) : List String :=
  (PICTOGRAM_H_CODE_MAP.filter (fun pr => pr.2.contains code)).map Prod.fst

/-- The `EUH_CODES` registry (EU-specific supplemental hazard statements). -/
def EUH_CODES : List (String × String) := [
  ("EUH001", "Explosive when dry."),
  ("EUH006", "Explosive with or without contact with air."),
  ("EUH014", "Reacts violently with water."),
  ("EUH018", "In use, may form flammable/explosive vapor-air mixture."),
  ("EUH019", "May form explosive peroxides."),
  ("EUH029", "Contact with water liberates toxic gas."),
  ("EUH031", "Contact with acids liberates toxic gas."),
  ("EUH032", "Contact with acids liberates very toxic gas."),
  ("EUH044", "Risk of explosion if heated under confinement."),
  ("EUH066", "Repeated exposure may cause skin dryness or cracking."),
  ("EUH070", "Toxic by eye contact."),
  ("EUH071", "Corrosive to the respiratory tract."),
  ("EUH201", "Contains lead. Should not be used on surfaces liable to be chewed or sucked by children."),
  ("EUH202", "Cyanoacrylate. Danger. Bonds skin and eyes in seconds. Keep out of the reach of children."),
  ("EUH203", "Contains chromium (VI). May produce an allergic reaction."),
  ("EUH204", "Contains isocyanates. May produce an allergic reaction."),
  ("EUH205", "Contains epoxy constituents. May produce an allergic reaction."),
  ("EUH206", "Warning! Do not use together with other products. May release dangerous gases (chlorine)."),
  ("EUH207", "Warning! Contains cadmium. Dangerous fumes are formed during use. See information supplied by the manufacturer. Comply with the safety instructions."),
  ("EUH208", "Contains sensitizing substance. May produce an allergic reaction."),
  ("EUH209", "Can become highly flammable in use."),
  ("EUH210", "Safety data sheet available on request."),
  ("EUH401", "To avoid risks to human health and the environment, comply with the instructions for use.")]

/-- The `CHEMICAL_EUH_REQUIREMENTS` registry: trigger phrase to EUH codes. -/
def CHEMICAL_EUH_REQUIREMENTS : List (String × List String) := [
  ("sodium hypochlorite", ["EUH031"]),
  ("bleach", ["EUH031"]),
  ("hypochlorite", ["EUH031"]),
  ("chlorine", ["EUH031"])]

/-- Embeds `get_supplemental_hazards`: for each registered trigger phrase
occurring as a substring of the lowercased product name, append the
formatted EUH statements (the `h_codes` parameter is unused by the source
body, as in the original). -/
def get_supplemental_hazards (product_name : String) (_h_codes : List String) : List String :=
  let product_lower := strLower product_name
  CHEMICAL_EUH_REQUIREMENTS.foldl
    (fun acc pr =>
      if strContains product_lower pr.1 then
        acc ++ pr.2.filterMap (fun euh =>
          (EUH_CODES.lookup euh).map (fun txt => euh ++ ": " ++ txt))
      else acc)
    []

/-- The `GHS_P_CODES` registry of `backend/validation.py`, including the
pre-combined multi-code statements. -/
def GHS_P_CODES : List (String × String) := [
  ("P201", "Obtain special instructions before use."),
  ("P202", "Do not handle until all safety precautions have been read and understood."),
  ("P210", "Keep away from heat, hot surfaces, sparks, open flames and other ignition sources. No smoking."),
  ("P211", "Do not spray on an open flame or other ignition source."),
  ("P220", "Keep away from clothing and other combustible materials."),
  ("P221", "Take any precaution to avoid mixing with combustibles."),
  ("P222", "Do not allow contact with air."),
  ("P223", "Do not allow contact with water."),
  ("P230", "Keep wetted with water."),
  ("P231", "Handle under inert gas."),
  ("P232", "Protect from moisture."),
  ("P233", "Keep container tightly closed."),
  ("P234", "Keep only in original container."),
  ("P235", "Keep cool."),
  ("P240", "Ground/bond container and receiving equipment."),
  ("P241", "Use explosion-proof electrical/ventilating/lighting equipment."),
  ("P242", "Use only non-sparking tools."),
  ("P243", "Take precautionary measures against static discharge."),
  ("P244", "Keep valves and fittings free from oil and grease."),
  ("P250", "Do not subject to grinding/shock/friction."),
  ("P251", "Pressurized container: Do not pierce or burn, even after use."),
  ("P260", "Do not breathe dust/fume/gas/mist/vapors/spray."),
  ("P261", "Avoid breathing dust/fume/gas/mist/vapors/spray."),
  ("P262", "Do not get in eyes, on skin, or on clothing."),
  ("P263", "Avoid contact during pregnancy/while nursing."),
  ("P264", "Wash hands thoroughly after handling."),
  ("P270", "Do not eat, drink or smoke when using this product."),
  ("P271", "Use only outdoors or in a well-ventilated area."),
  ("P272", "Contaminated work clothing should not be allowed out of the workplace."),
  ("P273", "Avoid release to the environment."),
  ("P280", "Wear protective gloves/protective clothing/eye protection/face protection."),
  ("P281", "Use personal protective equipment as required."),
  ("P282", "Wear cold insulating gloves/face shield/eye protection."),
  ("P283", "Wear fire/flame resistant/retardant clothing."),
  ("P284", "Wear respiratory protection."),
  ("P285", "In case of inadequate ventilation wear respiratory protection."),
  ("P301", "IF SWALLOWED:"),
  ("P302", "IF ON SKIN:"),
  ("P303", "IF ON SKIN (or hair):"),
  ("P304", "IF INHALED:"),
  ("P305", "IF IN EYES:"),
  ("P306", "IF ON CLOTHING:"),
  ("P307", "IF exposed:"),
  ("P308", "IF exposed or concerned:"),
  ("P309", "IF exposed or if you feel unwell:"),
  ("P310", "Immediately call a POISON CENTER or doctor/physician."),
  ("P311", "Call a POISON CENTER or doctor/physician."),
  ("P312", "Call a POISON CENTER or doctor/physician if you feel unwell."),
  ("P313", "Get medical advice/attention."),
  ("P314", "Get medical advice/attention if you feel unwell."),
  ("P315", "Get immediate medical advice/attention."),
  ("P320", "Specific treatment is urgent (see supplemental first aid instructions on this label)."),
  ("P321", "Specific treatment (see supplemental first aid instructions on this label)."),
  ("P322", "Specific measures (see supplemental first aid instructions on this label)."),
  ("P330", "Rinse mouth."),
  ("P331", "Do NOT induce vomiting."),
  ("P332", "If skin irritation occurs:"),
  ("P333", "If skin irritation or rash occurs:"),
  ("P334", "Immerse in cool water/wrap in wet bandages."),
  ("P335", "Brush off loose particles from skin."),
  ("P336", "Thaw frosted parts with lukewarm water. Do not rub affected area."),
  ("P337", "If eye irritation persists:"),
  ("P338", "Remove contact lenses, if present and easy to do. Continue rinsing."),
  ("P340", "Remove person to fresh air and keep comfortable for breathing."),
  ("P341", "If breathing is difficult, remove person to fresh air and keep comfortable for breathing."),
  ("P342", "If experiencing respiratory symptoms:"),
  ("P350", "Gently wash with plenty of soap and water."),
  ("P351", "Rinse cautiously with water for several minutes."),
  ("P352", "Wash with plenty of soap and water."),
  ("P353", "Rinse skin with water/shower."),
  ("P360", "Rinse immediately contaminated clothing and skin with plenty of water before removing clothes."),
  ("P361", "Remove/Take off immediately all contaminated clothing."),
  ("P362", "Take off contaminated clothing and wash before reuse."),
  ("P363", "Wash contaminated clothing before reuse."),
  ("P364", "And wash it before reuse."),
  ("P370", "In case of fire:"),
  ("P371", "In case of major fire and large quantities:"),
  ("P372", "Explosion risk in case of fire."),
  ("P373", "DO NOT fight fire when fire reaches explosives."),
  ("P374", "Fight fire with normal precautions from a reasonable distance."),
  ("P375", "Fight fire remotely due to the risk of explosion."),
  ("P376", "Stop leak if safe to do so."),
  ("P377", "Leaking gas fire: Do not extinguish, unless leak can be stopped safely."),
  ("P378", "Use dry sand, dry chemical or alcohol-resistant foam for extinction."),
  ("P380", "Evacuate area."),
  ("P381", "Eliminate all ignition sources if safe to do so."),
  ("P390", "Absorb spillage to prevent material damage."),
  ("P391", "Collect spillage."),
  ("P401", "Store in accordance with local/regional/national/international regulations."),
  ("P402", "Store in a dry place."),
  ("P403", "Store in a well-ventilated place."),
  ("P404", "Store in a closed container."),
  ("P405", "Store locked up."),
  ("P406", "Store in corrosive resistant container with resistant inner liner."),
  ("P407", "Maintain air gap between stacks/pallets."),
  ("P410", "Protect from sunlight."),
  ("P411", "Store at temperatures not exceeding specified temperature."),
  ("P412", "Do not expose to temperatures exceeding 50째C/122째F."),
  ("P413", "Store bulk masses greater than specified value at temperatures not exceeding specified temperature."),
  ("P420", "Store away from other materials."),
  ("P501", "Dispose of contents/container in accordance with local/regional/national/international regulations."),
  ("P502", "Refer to manufacturer or supplier for information on recovery or recycling."),
  ("P301+P310", "IF SWALLOWED: Immediately call a POISON CENTER or doctor/physician."),
  ("P301+P312", "IF SWALLOWED: Call a POISON CENTER or doctor/physician if you feel unwell."),
  ("P301+P330+P331", "IF SWALLOWED: Rinse mouth. Do NOT induce vomiting."),
  ("P302+P334", "IF ON SKIN: Immerse in cool water/wrap in wet bandages."),
  ("P302+P350", "IF ON SKIN: Gently wash with plenty of soap and water."),
  ("P302+P352", "IF ON SKIN: Wash with plenty of soap and water."),
  ("P303+P361+P353", "IF ON SKIN (or hair): Remove/Take off immediately all contaminated clothing. Rinse skin with water/shower."),
  ("P304+P312", "IF INHALED: Call a POISON CENTER or doctor/physician if you feel unwell."),
  ("P304+P340", "IF INHALED: Remove person to fresh air and keep comfortable for breathing."),
  ("P304+P341", "IF INHALED: If breathing is difficult, remove person to fresh air and keep comfortable for breathing."),
  ("P305+P351+P338", "IF IN EYES: Rinse cautiously with water for several minutes. Remove contact lenses, if present and easy to do. Continue rinsing."),
  ("P306+P360", "IF ON CLOTHING: Rinse immediately contaminated clothing and skin with plenty of water before removing clothes."),
  ("P307+P311", "IF exposed: Call a POISON CENTER or doctor/physician."),
  ("P308+P313", "IF exposed or concerned: Get medical advice/attention."),
  ("P309+P311", "IF exposed or if you feel unwell: Call a POISON CENTER or doctor/physician."),
  ("P332+P313", "If skin irritation occurs: Get medical advice/attention."),
  ("P333+P313", "If skin irritation or rash occurs: Get medical advice/attention."),
  ("P335+P334", "Brush off loose particles from skin. Immerse in cool water/wrap in wet bandages."),
  ("P337+P313", "If eye irritation persists: Get medical advice/attention."),
  ("P342+P311", "If experiencing respiratory symptoms: Call a POISON CENTER or doctor/physician."),
  ("P370+P376", "In case of fire: Stop leak if safe to do so."),
  ("P370+P378", "In case of fire: Use dry sand, dry chemical or alcohol-resistant foam for extinction."),
  ("P370+P380", "In case of fire: Evacuate area."),
  ("P370+P380+P375", "In case of fire: Evacuate area. Fight fire remotely due to the risk of explosion."),
  ("P371+P380+P375", "In case of major fire and large quantities: Evacuate area. Fight fire remotely due to the risk of explosion."),
  ("P402+P404", "Store in a dry place. Store in a closed container."),
  ("P403+P233", "Store in a well-ventilated place. Keep container tightly closed."),
  ("P403+P235", "Store in a well-ventilated place. Keep cool."),
  ("P410+P403", "Protect from sunlight. Store in a well-ventilated place."),
  ("P410+P412", "Protect from sunlight. Do not expose to temperatures exceeding 50째C/122째F.")]

/-- Modelled from the spec: the Statement Validator applied to precautionary
statements (spec §4.2 and §4.7 "Run Statement Validator on hazard and
precautionary statements independently"). No precautionary-statement
validator exists in the source — `validate_ghs_label` passes the raw list
through — so this definition follows the spec's words: split on the first
colon; if the code prefix exists in the Registry, replace the trailing text
with the canonical Registry text; otherwise keep the entry verbatim. -/
def spec_validate_precautionary_statements (statements : List String) : List String :=
  statements.map (fun stmt =>
    match GHS_P_CODES.lookup (colonCode stmt) with
    | some official_text => colonCode stmt ++ ": " ++ official_text
    | none => stmt)

/-- Result dictionary of `validate_sds_age`. -/
structure SdsAgeResult where
  is_outdated : Bool
  warning : Option String
  years_old : Option ℚ
deriving DecidableEq, Repr

/-- Rounding to one decimal place, standing in for Python `round(x, 1)`.
Python rounds half to even, but `years_old * 10` is never exactly a
half-integer (its denominator divides 1461/gcd, never exactly 2), so
round-half-up agrees with the source on every reachable value. -/
def round1 (q : ℚ) : ℚ :=
  (round (q * 10) : ℤ) / 10

/-- Decimal rendering of a one-decimal rational, standing in for Python
`f"{x:.1f}"` on the value produced by `round1`. -/
def fmtDec1 (q : ℚ) : String :=
  let n : ℤ := round (q * 10)
  toString (n / 10) ++ "." ++ toString (n % 10).natAbs

/-- Embeds `validate_sds_age`. `parseElapsedDays` abstracts the external
stdlib pipeline — `datetime.strptime` over the fixed format-priority list,
the bare-year fallback `datetime(year, 6, 15)`, and the subtraction
`(datetime.now() - parsed_date).days` — returning the elapsed day count for
a parsable date and `none` otherwise. The empty string is Python's falsy
missing date (`if not sds_date`); the source's catch-all `except` also lands
in the `none` branch. `365.25`-day years, as in the source. -/
def validate_sds_age (parseElapsedDays : String → Option ℤ) (sds_date : String) : SdsAgeResult :=
  if sds_date = "" then { is_outdated := false, warning := none, years_old := none }
  else
    match parseElapsedDays sds_date with
    | none => { is_outdated := false, warning := none, years_old := none }
    | some days =>
      let years_old : ℚ := (days : ℚ) / (365.25 : ℚ)
      let is_outdated : Bool := decide (years_old > 5)
      { is_outdated := is_outdated,
        warning := if is_outdated then
            some ("SDS is " ++ fmtDec1 (round1 years_old) ++ " years old. Review recommended.")
          else none,
        years_old := some (round1 years_old) }

/-- Issue dictionaries emitted by `hazlabel_guard` (`code`, `severity.value`,
`message`). -/
structure GuardIssue where
  code : String
  severity : String
  message : String
deriving DecidableEq, Repr

/-- The dictionary returned by `hazlabel_guard`. -/
structure GuardResult where
  validated_hazard_statements : List String
  validated_precautionary_statements : List String
  validated_pictograms : List String
  suggested_pictograms : List String
  supplemental_hazards : List String
  sds_age_warning : Option String
  sds_years_old : Option ℚ
  issues : List GuardIssue
  is_valid : Bool
deriving DecidableEq, Repr

/-- Embeds `hazlabel_guard`: validates with the fixed placeholder signal word
`"Danger"` (the function accepts no signal-word argument), collects
supplemental hazards and the SDS age result, and projects the issues to
`code`/`severity.value`/`message` dictionaries. `sds_date = ""` models the
`None` default. -/
def hazlabel_guard (simOK : String → String → Bool) (parseElapsedDays : String → Option ℤ)
    (product_name : String) (hazard_statements precautionary_statements pictograms : List String)
    (sds_date : String := "") : GuardResult :=
  let validation_result :=
    validate_ghs_label simOK "Danger" hazard_statements precautionary_statements pictograms
  let supplemental_hazards := get_supplemental_hazards product_name hazard_statements
  let sds_age_result := validate_sds_age parseElapsedDays sds_date
  { validated_hazard_statements := validation_result.validated_hazard_statements,
    validated_precautionary_statements := validation_result.validated_precautionary_statements,
    validated_pictograms := suggest_pictograms_for_codes hazard_statements,
    suggested_pictograms := suggest_pictograms_for_codes hazard_statements,
    supplemental_hazards := supplemental_hazards,
    sds_age_warning := sds_age_result.warning,
    sds_years_old := sds_age_result.years_old,
    issues := validation_result.issues.map (fun i => ⟨i.code, i.severity.value, i.message⟩),
    is_valid := validation_result.is_valid }

/-- One point unit; reportlab's `inch` is 72 points. -/
def inch : ℚ := 72

/-- Python `s.startswith(pre)`. -/
def strStartsWith (s pre : String) : Bool :=
  charsMatchAt pre.toList s.toList

/-- Python `s[:n]`: the first `n` characters. -/
def strTake (s : String) (n : ℕ) : String :=
  String.mk (s.toList.take n)

/-- Python `str.split()` with no argument: maximal runs of non-whitespace. -/
def wordsAux : List Char → List Char → List String
  | [], acc => if acc = [] then [] else [String.mk acc.reverse]
  | c :: cs, acc =>
    if c.isWhitespace then
      if acc = [] then wordsAux cs [] else String.mk acc.reverse :: wordsAux cs []
    else wordsAux cs (c :: acc)

/-- Python `str.split()` on a string. -/
def pyWords (s : String) : List String :=
  wordsAux s.toList []

/-- Python `str.replace` scanning left to right; the fuel argument bounds the
iteration count and is called with the input length, which suffices because
every step consumes at least one character of the scanned list (the pattern,
when it matches and is nonempty, or a single unmatched character). -/
def replaceCharsFuel (pat repl : List Char) : ℕ → List Char → List Char
  | 0, l => l
  | _, [] => []
  | fuel + 1, c :: cs =>
    if pat ≠ [] ∧ charsMatchAt pat (c :: cs) then
      repl ++ replaceCharsFuel pat repl fuel ((c :: cs).drop pat.length)
    else c :: replaceCharsFuel pat repl fuel cs

/-- Python `s.replace(pat, repl)` (for the nonempty patterns the source uses). -/
def strReplace (s pat repl : String) : String :=
  String.mk (replaceCharsFuel pat.toList repl.toList s.toList.length s.toList)

/-- The GHS label fields read from a chemical's `ghs_data` dictionary; absent
keys are `none` (the source reads them with `.get` defaults). -/
structure GhsData where
  product_identifier : Option String
  signal_word : Option String
  pictograms : List String
  hazard_statements : List String
  precautionary_statements : List String
  supplier_info : Option String
deriving DecidableEq, Repr

/-- The vertical block of a label a text drawing instruction belongs to (the
numbered sections of `bulk_print_pdf`). -/
inductive LabelBlock where
  | product
  | signalWord
  | hazard
  | precaution
  | footer
deriving DecidableEq, Repr

/-- A drawing instruction emitted while rendering one label: the border
rectangle, a text run (tagged with its block), or a pictogram placement (the
rotated diamond; whether the PNG exists only switches between the image and a
placeholder square at the same position, which this embedding does not
distinguish). -/
inductive DrawOp where
  | rect (x y w h : ℚ)
  | text (block : LabelBlock) (x y : ℚ) (font : String) (size : ℚ) (s : String)
  | pict (code : String) (cx cy size : ℚ)
deriving DecidableEq, Repr

/-- Ambient inputs of one label render: `strWidth` abstracts reportlab's
font-metric `p.stringWidth(text, font, size)`; `cleanText` abstracts the
regex pipeline `clean_statement_text`; `x`/`y` are the grid cell origin;
`scale` abstracts the `math.sqrt`-based scale factor of lines 745-753,
already clamped. -/
structure RenderCtx where
  strWidth : String → String → ℚ → ℚ
  cleanText : String → String
  x : ℚ
  y : ℚ
  label_width : ℚ
  label_height : ℚ
  scale : ℚ

/-- The word-wrapping accumulation loop shared by the hazard and
precautionary sections: greedily extend the current line while it fits. -/
def wrapWords (widthOf : String → ℚ) (maxW : ℚ) : List String → String → List String
  | [], cur => if cur = "" then [] else [cur]
  | word :: rest, cur =>
    let test := if cur = "" then word else cur ++ " " ++ word
    if widthOf test ≤ maxW then wrapWords widthOf maxW rest test
    else if cur = "" then wrapWords widthOf maxW rest word
    else cur :: wrapWords widthOf maxW rest word

/-- Continuation lines after the first wrapped line: each is drawn at the
indent position after decrementing the cursor by `factor * lineH`, stopping
(mid-statement) once the cursor crosses `bottomY`. Returns the emitted ops
and the final cursor. -/
def drawContLines (block : LabelBlock) (font : String) (size xIndent factor lineH bottomY : ℚ) :
    List String → ℚ → List DrawOp × ℚ
  | [], y => ([], y)
  | line :: rest, y =>
    let y2 := y - lineH * factor
    if y2 < bottomY then ([], y2)
    else
      let r := drawContLines block font size xIndent factor lineH bottomY rest y2
      (DrawOp.text block xIndent y2 font size line :: r.1, r.2)

/-- The hazard-statement loop of section 4: bold bullet code, wrapped
description, `line_height` advance per statement, and a break (remaining
statements omitted) once the cursor crosses `bottomY`. -/
def drawHazardLoop (ctx : RenderCtx) (innerX textW fontSmall lineH bottomY : ℚ) :
    List String → ℚ → List DrawOp × ℚ
  | [], y => ([], y)
  | stmt :: rest, y =>
    if y < bottomY then ([], y)
    else
      let sp := splitFirst ':' stmt.toList
      let code_part := match sp.2 with
        | some _ => strStrip (String.mk sp.1)
        | none => ""
      let desc_part := match sp.2 with
        | some restChars => ctx.cleanText (strStrip (String.mk restChars))
        | none => ctx.cleanText stmt
      let bullet_code := if code_part ≠ "" then "- " ++ code_part ++ ":" else "-"
      let code_width := ctx.strWidth bullet_code "Helvetica-Bold" fontSmall
      let desc_x := innerX + code_width + 2 * ctx.scale
      let max_desc_width := textW - code_width - 4 * ctx.scale
      let inner :=
        if desc_part ≠ "" then
          match wrapWords (fun t => ctx.strWidth t "Helvetica" fontSmall) max_desc_width
              (pyWords desc_part) "" with
          | [] => (([] : List DrawOp), y)
          | l0 :: ls =>
            let cont := drawContLines .hazard "Helvetica" fontSmall
              (innerX + 0.12 * inch * ctx.scale) 0.85 lineH bottomY ls y
            (DrawOp.text .hazard desc_x y "Helvetica" fontSmall l0 :: cont.1, cont.2)
        else (([] : List DrawOp), y)
      let r := drawHazardLoop ctx innerX textW fontSmall lineH bottomY rest (inner.2 - lineH)
      (DrawOp.text .hazard innerX y "Helvetica-Bold" fontSmall bullet_code :: (inner.1 ++ r.1),
       r.2)

/-- The `get_category` helper of the precautionary section. -/
def get_category (s : String) : String :=
  if strStartsWith s "P2" then "prevention"
  else if strStartsWith s "P3" then "response"
  else if strStartsWith s "P4" then "storage"
  else if strStartsWith s "P5" then "disposal"
  else "other"

/-- The GHS-priority ordering of precautionary statements: P280 first within
prevention, then the remaining prevention, response, storage, disposal. -/
def orderedPStatements (p_stmts : List String) : List String :=
  let prevention := p_stmts.filter (fun s => get_category s = "prevention")
  let response := p_stmts.filter (fun s => get_category s = "response")
  let storage := p_stmts.filter (fun s => get_category s = "storage")
  let disposal := p_stmts.filter (fun s => get_category s = "disposal")
  (prevention.filter (fun s => strContains s "P280")) ++
    (prevention.filter (fun s => !(strContains s "P280"))) ++
    response ++ storage ++ disposal

/-- The precautionary-statement loop of section 5: bold full code (combined
codes kept as single units), wrapped description, `0.8 * line_height` advance
per statement, and a break once the cursor crosses the reserved-footer
boundary `bottomY`. -/
def drawPrecautionLoop (ctx : RenderCtx) (innerX textW fontP lineH bottomY : ℚ) :
    List String → ℚ → List DrawOp × ℚ
  | [], y => ([], y)
  | stmt :: rest, y =>
    if y < bottomY then ([], y)
    else
      let sp := splitFirst ':' stmt.toList
      let code_part := match sp.2 with
        | some _ => strStrip (String.mk sp.1) ++ ":"
        | none => stmt
      let desc_part := match sp.2 with
        | some restChars => ctx.cleanText (strStrip (String.mk restChars))
        | none => ""
      let code_width := ctx.strWidth code_part "Helvetica-Bold" fontP
      let desc_x := innerX + code_width + 2 * ctx.scale
      let max_desc_width := textW - code_width - 4 * ctx.scale
      let inner :=
        if desc_part ≠ "" then
          match wrapWords (fun t => ctx.strWidth t "Helvetica" fontP) max_desc_width
              (pyWords desc_part) "" with
          | [] => (([] : List DrawOp), y)
          | l0 :: ls =>
            let cont := drawContLines .precaution "Helvetica" fontP
              (innerX + 0.08 * inch * ctx.scale) 0.7 lineH bottomY ls y
            (DrawOp.text .precaution desc_x y "Helvetica" fontP l0 :: cont.1, cont.2)
        else (([] : List DrawOp), y)
      let r := drawPrecautionLoop ctx innerX textW fontP lineH bottomY rest (inner.2 - lineH * 0.8)
      (DrawOp.text .precaution innerX y "Helvetica-Bold" fontP code_part :: (inner.1 ++ r.1),
       r.2)

/-- Section 3: the rotated pictogram diamonds, vertically centered as a
group, with the count-keyed shrink factors. -/
def pictogramOps (ctx : RenderCtx) (innerX textW picColW : ℚ) (pictograms : List String) :
    List DrawOp :=
  let num_pics := min pictograms.length 4
  if num_pics = 0 then []
  else
    let max_pic_size := (picColW * 0.85) / 1.414
    let pic_size :=
      if num_pics = 1 then max_pic_size
      else if num_pics = 2 then max_pic_size * 0.85
      else if num_pics = 3 then max_pic_size * 0.70
      else max_pic_size * 0.60
    let top_margin := 0.15 * inch * ctx.scale
    let bottom_margin := 0.18 * inch * ctx.scale
    let available_height := ctx.label_height - top_margin - bottom_margin
    let diamond_span := pic_size * 1.414
    let pic_spacing := if num_pics > 1 then diamond_span + 0.02 * inch * ctx.scale else 0
    let total_height :=
      if num_pics = 1 then diamond_span else ((num_pics : ℚ) - 1) * pic_spacing + diamond_span
    let start_offset := (available_height - total_height) / 2
    let pic_center_x := innerX + textW + picColW / 2
    let pic_top_y := ctx.y + ctx.label_height - top_margin - start_offset - diamond_span / 2
    (pictograms.take 4).enum.map (fun pr =>
      DrawOp.pict pr.2 pic_center_x (pic_top_y - (pr.1 : ℚ) * pic_spacing) pic_size)

/-- The supplier-truncation `while` loop of section 6: chop four characters
and append an ellipsis until the string fits or is at most 10 characters
long. Fuel is the input length, which suffices because every iteration
shortens the list by exactly one character. -/
def shrinkSupplierChars (widthOf : List Char → ℚ) (maxW : ℚ) : ℕ → List Char → List Char
  | 0, s => s
  | fuel + 1, s =>
    if widthOf s > maxW ∧ s.length > 10 then
      shrinkSupplierChars widthOf maxW fuel (s.take (s.length - 4) ++ ['.', '.', '.'])
    else s

/-- The compact supplier string of section 6: strip the registered mark,
abbreviate the known long supplier name, shorten very long strings to their
first eight words, then shrink until the footer fits `maxW`. -/
def supplierCompact (strWidth : String → String → ℚ → ℚ) (maxW font_supplier : ℚ)
    (supplier : String) : String :=
  let s1 := strReplace supplier "®" ""
  let s2 := strReplace s1 "NuGeneration Technologies, LLC (dba NuGenTec)" "NuGenTec"
  let s3 :=
    if s2.toList.length > 80 then
      let parts := pyWords s2
      if parts.length > 5 then String.intercalate " " (parts.take 8) ++ "..." else s2
    else s2
  String.mk (shrinkSupplierChars (fun cs => strWidth (String.mk cs) "Helvetica" font_supplier)
    maxW s3.toList.length s3.toList)

/-- Embeds the per-label body of `bulk_print_pdf` (lines 736-1107): border,
product identifier, signal word, pictogram column, hazard statements with
supplemental EUH statements appended, ordered precautionary statements, and
the unconditionally drawn supplier footer. Color and font-state changes emit
no instructions of their own and are not modeled. -/
def renderLabel (ctx : RenderCtx) (ghs : GhsData) : List DrawOp :=
  let padding := 0.15 * inch
  let content_width := ctx.label_width - 2 * padding
  let inner_x := ctx.x + padding
  let pic_column_pct : ℚ := if ctx.label_height ≥ 3 * inch then 0.30 else 0.25
  let pic_column_width := content_width * pic_column_pct
  let text_width := content_width - pic_column_width
  let font_tiny : ℚ := ((max 6 ⌊6 * ctx.scale⌋ : ℤ) : ℚ)
  let font_small : ℚ := ((max 7 ⌊7 * ctx.scale⌋ : ℤ) : ℚ)
  let font_medium : ℚ := ((max 10 ⌊10 * ctx.scale⌋ : ℤ) : ℚ)
  let font_xlarge : ℚ := ((max 14 ⌊14 * ctx.scale⌋ : ℤ) : ℚ)
  let spacing_small := 0.12 * inch * ctx.scale
  let spacing_medium := 0.16 * inch * ctx.scale
  let spacing_large := 0.22 * inch * ctx.scale
  let y0 := ctx.y + ctx.label_height - spacing_medium
  let product_name := strTake (ghs.product_identifier.getD "Unknown Product") 60
  let prodOps :=
    [DrawOp.text .product inner_x y0 "Helvetica" font_tiny "Product Identifier:",
     DrawOp.text .product inner_x (y0 - spacing_small) "Helvetica-Bold" font_medium product_name]
  let y1 := y0 - spacing_small - spacing_medium
  let signal_word := ghs.signal_word.getD ""
  let swOps := [DrawOp.text .signalWord inner_x y1 "Helvetica-Bold" font_xlarge
    (strUpper signal_word)]
  let y2 := y1 - spacing_large
  let picOps := pictogramOps ctx inner_x text_width pic_column_width ghs.pictograms
  let supp_stmts := get_supplemental_hazards (ghs.product_identifier.getD "")
    ghs.hazard_statements
  let all_hazards := ghs.hazard_statements ++ supp_stmts
  let line_height := 0.11 * inch * ctx.scale
  let bottom_margin_y := ctx.y + 0.35 * inch * ctx.scale
  let hz := drawHazardLoop ctx inner_x text_width font_small line_height bottom_margin_y
    all_hazards y2
  let font_p_code : ℚ := ((max 6 ⌊6 * ctx.scale⌋ : ℤ) : ℚ)
  let ordered := orderedPStatements ghs.precautionary_statements
  let footer_height := 0.15 * inch * ctx.scale
  let p_code_bottom_margin := ctx.y + footer_height
  let pc := drawPrecautionLoop ctx inner_x text_width font_p_code line_height
    p_code_bottom_margin ordered (hz.2 - spacing_small * 0.5)
  let footer_y := ctx.y + 0.08 * inch * ctx.scale
  let font_supplier : ℚ := ((max 5 ⌊5 * ctx.scale⌋ : ℤ) : ℚ)
  let supplier := ghs.supplier_info.getD ""
  let supplier_compact := supplierCompact ctx.strWidth text_width font_supplier supplier
  DrawOp.rect ctx.x ctx.y ctx.label_width ctx.label_height ::
    (prodOps ++ swOps ++ picOps ++ hz.1 ++ pc.1 ++
      [DrawOp.text .footer inner_x footer_y "Helvetica" font_supplier supplier_compact])

/-- Physical page geometry of the bulk loop, derived in the source from the
request and `LABEL_SIZE_CONFIG` (lines 684-717); `scale` abstracts the
clamped `math.sqrt` scale factor. -/
structure PageGeom where
  page_height : ℚ
  margin_left : ℚ
  margin_top : ℚ
  horizontal_gutter : ℚ
  vertical_gutter : ℚ
  cols : ℕ
  labels_per_page : ℕ
  label_width : ℚ
  label_height : ℚ
  scale : ℚ

/-- The bulk loop over chemicals: a chemical without resolvable `ghs_data`
(`none`) is skipped without advancing the label counter; otherwise the grid
cell origin is computed from the running counter and the label is rendered.
Page breaks emit no drawing instructions and are not modeled. Returns one
instruction list per rendered label instance. -/
def bulkRenderAux (strWidth : String → String → ℚ → ℚ) (cleanText : String → String)
    (geom : PageGeom) : List (Option GhsData) → ℕ → List (List DrawOp)
  | [], _ => []
  | none :: rest, label_index => bulkRenderAux strWidth cleanText geom rest label_index
  | some ghs :: rest, label_index =>
    let page_label_index := label_index % geom.labels_per_page
    let row := page_label_index / geom.cols
    let col := page_label_index % geom.cols
    let x := geom.margin_left + (col : ℚ) * (geom.label_width + geom.horizontal_gutter)
    let y := geom.page_height - geom.margin_top -
      ((row : ℚ) + 1) * (geom.label_height + geom.vertical_gutter)
    renderLabel ⟨strWidth, cleanText, x, y, geom.label_width, geom.label_height, geom.scale⟩ ghs ::
      bulkRenderAux strWidth cleanText geom rest (label_index + 1)

/-- `bulk_print_pdf`'s label rendering, one instruction list per rendered
label instance. -/
def bulkRender (strWidth : String → String → ℚ → ℚ) (cleanText : String → String)
    (geom : PageGeom) (chemicals : List (Option GhsData)) : List (List DrawOp) :=
  bulkRenderAux strWidth cleanText geom chemicals 0

/-- Is this instruction the supplier-info footer text? -/
def isFooterOp : DrawOp → Bool
  | .text .footer _ _ _ _ _ => true
  | _ => false

/-- Does a rendered label's instruction list contain the supplier footer? -/
def hasFooterOp (ops : List DrawOp) : Bool :=
  ops.any isFooterOp

/-- The pointwise transformation that `validate_hazard_statements` applies to
each statement: canonical replacement for registry codes, verbatim otherwise. -/
def canonicalizeStatement (stmt : String) : String :=
  match GHS_H_CODES.lookup (colonCode stmt) with
  | some official_text => colonCode stmt ++ ": " ++ official_text
  | none => stmt

/-- The required signal word the orchestrator resolves from the validated
hazard statements (the `suggested_sw` computation of `validate_ghs_label`). -/
def requiredOf (simOK : String → String → Bool) (hazard_statements : List String) : String :=
  if ∃ c ∈ cleanHCodes (validate_hazard_statements simOK hazard_statements).1, c ∈ critical_h
  then "Danger" else "Warning"

example : (validate_hazard_statements (fun _ _ => true) ["h225: Highly flammable liquid and vapor"]).1 =
    ["H225: Highly flammable liquid and vapor"] := by decide

example : (validate_ghs_label (fun _ _ => true) "Danger" [] [] []).is_valid = true := by decide

example : (validate_ghs_label (fun _ _ => true) "Danger" [] [] []).issues.length = 1 := by decide

example : suggest_pictograms_for_codes ["H314", "H332"] = ["GHS05", "GHS07"] := by decide

example : suggest_pictograms_for_codes ["H314", "H315"] = ["GHS05"] := by decide

example : suggest_pictograms_for_codes ["H314"] = ["GHS05"] := by decide

example : suggest_pictograms_for_codes ["GHS05"] = [] := by decide

example : suggest_pictograms_for_codes ["H300", "H302"] = ["GHS06"] := by decide

example : (get_supplemental_hazards "sodium hypochlorite bleach" ["H314"]).length = 3 := by decide

example : get_supplemental_hazards "Bleach Cleaner" [] =
    ["EUH031: Contact with acids liberates toxic gas."] := by decide

/-- C3: the validator's output list is the input list mapped pointwise —
registry-known colon-prefix codes are replaced by `CODE: canonical text`
(whatever `simOK` says about similarity), unknown codes are kept verbatim,
the length and order are preserved, and no statement is dropped. -/
theorem validator_maps_statements (simOK : String → String → Bool) (stmts : List String) :
    (validate_hazard_statements simOK stmts).1 = stmts.map canonicalizeStatement ∧
    (validate_hazard_statements simOK stmts).1.length = stmts.length := by
  have key : (validate_hazard_statements simOK stmts).1 = stmts.map canonicalizeStatement := by
    induction stmts with
    | nil => rfl
    | cons stmt rest ih =>
      simp only [validate_hazard_statements, List.map_cons]
      unfold canonicalizeStatement
      cases hl : GHS_H_CODES.lookup (colonCode stmt) with
      | none => simpa using ih
      | some t =>
        by_cases hs : simOK (strLower t) (strLower (colonRest stmt)) = true
        · simpa [hs] using ih
        · simp only [Bool.not_eq_true] at hs
          simpa [hs] using ih
  exact ⟨key, by rw [key, List.length_map]⟩

/-- Bridge: a "no error issue" condition in terms of the boolean aggregate
the orchestrator computes. -/
theorem no_error_any_iff (L : List ValidationIssue) :
    ((!(L.any fun i => i.severity == ValidationSeverity.error)) = true) ↔
      ∀ i ∈ L, i.severity ≠ ValidationSeverity.error := by
  simp [List.any_eq_true]

/-- C1 (corrected): the claim as stated is false — a critical-severity issue
(error-or-higher) can coexist with `is_valid = true`, because the aggregate
only consults severities equal to `error`. At signal word "Danger" with no
hazard statements, the outcome carries one critical SIGNAL_WORD issue while
`is_valid` is true. -/
theorem validity_ignores_critical_ce :
    ((validate_ghs_label (fun _ _ => true) "Danger" [] [] []).is_valid = true) ∧
      ∃ i ∈ (validate_ghs_label (fun _ _ => true) "Danger" [] [] []).issues,
        (i.severity = ValidationSeverity.error ∨ i.severity = ValidationSeverity.critical) := by
  decide

/-- C1 (amended): the orchestrator's `is_valid` flag is true iff no issue in
the outcome has severity exactly `error`; critical-severity issues do not
affect it. In particular no outcome has an error-severity issue coexisting
with `is_valid = true`. -/
theorem validity_iff_no_error_issue (simOK : String → String → Bool) (sw : String)
    (h p picts : List String) :
    ((validate_ghs_label simOK sw h p picts).is_valid = true) ↔
      ∀ i ∈ (validate_ghs_label simOK sw h p picts).issues,
        i.severity ≠ ValidationSeverity.error := by
  have hv : (validate_ghs_label simOK sw h p picts).is_valid =
      !((validate_ghs_label simOK sw h p picts).issues.any
        fun i => i.severity == ValidationSeverity.error) := rfl
  rw [hv]
  exact no_error_any_iff _

/-- C7 (corrected): at a concrete input, the outcome's precautionary list is
not the Statement Validator's output described by the spec (canonical text
for registry-known codes) — the raw text survives unchanged. -/
theorem precautionary_not_validated_ce :
    ValidationResult.validated_precautionary_statements
        (validate_ghs_label (fun _ _ => true) "Warning" [] ["P280: wrong text"] []) ≠
      spec_validate_precautionary_statements ["P280: wrong text"] := by
  decide

/-- C7 (amended): the Statement Validator is applied only to hazard
statements; for every input, the outcome's corrected precautionary list is
the raw input list passed through unchanged. -/
theorem precautionary_passthrough (simOK : String → String → Bool) (sw : String)
    (h p picts : List String) :
    (validate_ghs_label simOK sw h p picts).validated_precautionary_statements = p := rfl

/-- C6 (code bug): `get_supplemental_hazards` does not suppress duplicates —
a product name matching the "sodium hypochlorite", "bleach" and
"hypochlorite" trigger phrases yields the same EUH031 statement three times,
where the spec requires it exactly once. -/
theorem supplemental_duplicates_bug :
    get_supplemental_hazards "sodium hypochlorite bleach"
        ["H314: Causes severe skin burns and eye damage"] =
      ["EUH031: Contact with acids liberates toxic gas.",
       "EUH031: Contact with acids liberates toxic gas.",
       "EUH031: Contact with acids liberates toxic gas."] := by
  decide

/-- Every pictogram a precedence rule keeps was already suggested (rule 1). -/
theorem mem_of_mem_pictRule1 {p : String} {sug : List String} (h : p ∈ pictRule1 sug) :
    p ∈ sug := by
  unfold pictRule1 at h
  split at h
  · exact List.mem_of_mem_erase h
  · exact h

/-- Every pictogram rule 2 keeps was already suggested. -/
theorem mem_of_mem_pictRule2 {p : String} {clean sug : List String}
    (h : p ∈ pictRule2 clean sug) : p ∈ sug := by
  unfold pictRule2 at h
  repeat' split at h
  all_goals first
    | exact List.mem_of_mem_erase h
    | exact h

/-- Every pictogram rule 3 keeps was already suggested. -/
theorem mem_of_mem_pictRule3 {p : String} {clean sug : List String}
    (h : p ∈ pictRule3 clean sug) : p ∈ sug := by
  unfold pictRule3 at h
  repeat' split at h
  all_goals first
    | exact List.mem_of_mem_erase h
    | exact h

/-- Rule 1 only ever removes GHS07. -/
theorem mem_pictRule1_of_ne {p : String} {sug : List String} (hne : p ≠ "GHS07")
    (h : p ∈ sug) : p ∈ pictRule1 sug := by
  unfold pictRule1
  split
  · exact (List.mem_erase_of_ne hne).2 h
  · exact h

/-- Rule 2 only ever removes GHS07. -/
theorem mem_pictRule2_of_ne {p : String} {clean sug : List String} (hne : p ≠ "GHS07")
    (h : p ∈ sug) : p ∈ pictRule2 clean sug := by
  unfold pictRule2
  repeat' split
  all_goals first
    | exact (List.mem_erase_of_ne hne).2 h
    | exact h

/-- Rule 3 only ever removes GHS07. -/
theorem mem_pictRule3_of_ne {p : String} {clean sug : List String} (hne : p ≠ "GHS07")
    (h : p ∈ sug) : p ∈ pictRule3 clean sug := by
  unfold pictRule3
  repeat' split
  all_goals first
    | exact (List.mem_erase_of_ne hne).2 h
    | exact h

/-- If rule 1 removed GHS07, its trigger GHS06 was suggested. -/
theorem pictRule1_removed_mem {sug : List String} (h7 : "GHS07" ∈ sug)
    (hout : "GHS07" ∉ pictRule1 sug) : "GHS06" ∈ sug := by
  unfold pictRule1 at hout
  by_cases hc : "GHS06" ∈ sug ∧ "GHS07" ∈ sug
  · exact hc.1
  · rw [if_neg hc] at hout
    exact absurd h7 hout

/-- If rule 2 removed GHS07, its trigger GHS05 was suggested. -/
theorem pictRule2_removed_mem {clean sug : List String} (h7 : "GHS07" ∈ sug)
    (hout : "GHS07" ∉ pictRule2 clean sug) : "GHS05" ∈ sug := by
  unfold pictRule2 at hout
  by_cases hc : "GHS05" ∈ sug ∧ "GHS07" ∈ sug
  · exact hc.1
  · rw [if_neg hc] at hout
    exact absurd h7 hout

/-- If rule 3 removed GHS07, its trigger GHS08 was suggested. -/
theorem pictRule3_removed_mem {clean sug : List String} (h7 : "GHS07" ∈ sug)
    (hout : "GHS07" ∉ pictRule3 clean sug) : "GHS08" ∈ sug := by
  unfold pictRule3 at hout
  by_cases hc : "GHS08" ∈ sug ∧ "GHS07" ∈ sug
  · exact hc.1
  · rw [if_neg hc] at hout
    exact absurd h7 hout

/-- Every element of the resolver's output is a map key (a `GHS0x` name). -/
theorem suggest_subset_keys {p : String} {h_codes : List String}
    (hp : p ∈ suggest_pictograms_for_codes h_codes) :
    p ∈ PICTOGRAM_H_CODE_MAP.map Prod.fst := by
  unfold suggest_pictograms_for_codes at hp
  rw [List.mem_insertionSort] at hp
  have hb : p ∈ suggestedFromClean (cleanHCodes h_codes) :=
    mem_of_mem_pictRule1 (mem_of_mem_pictRule2 (mem_of_mem_pictRule3 hp))
  unfold suggestedFromClean at hb
  rcases List.mem_map.1 hb with ⟨pr, hpr, rfl⟩
  exact List.mem_map_of_mem _ (List.mem_of_mem_filter hpr)

/-- No pictogram identifier parses as an H-code. -/
theorem keys_extract_none : ∀ p ∈ PICTOGRAM_H_CODE_MAP.map Prod.fst,
    extractHCode p = none := by decide

/-- Cleaning the resolver's own output yields no hazard codes at all. -/
theorem clean_suggest_nil (h_codes : List String) :
    cleanHCodes (suggest_pictograms_for_codes h_codes) = [] := by
  unfold cleanHCodes
  rw [List.filterMap_eq_nil_iff]
  intro a ha
  exact keys_extract_none a (suggest_subset_keys ha)

/-- The resolver maps a code-free input to the empty pictogram list. -/
theorem suggest_eq_nil_of_clean_nil {l : List String} (h : cleanHCodes l = []) :
    suggest_pictograms_for_codes l = [] := by
  unfold suggest_pictograms_for_codes
  rw [h]
  decide

/-- C4 (corrected): re-applying the resolver to its own output does not
reproduce the output — pictogram identifiers are not hazard codes, so the
second application collapses to the empty list. -/
theorem pictogram_idempotence_ce :
    suggest_pictograms_for_codes (suggest_pictograms_for_codes ["H314"]) ≠
      suggest_pictograms_for_codes ["H314"] := by decide

/-- C4 (amended): for every input, re-applying the resolver to its own output
yields the empty list (the output contains pictogram identifiers, which carry
no `H`-code prefix); it reproduces the single application exactly when that
application is already empty. -/
theorem pictogram_reapplication (h_codes : List String) :
    suggest_pictograms_for_codes (suggest_pictograms_for_codes h_codes) = [] ∧
    (suggest_pictograms_for_codes (suggest_pictograms_for_codes h_codes) =
        suggest_pictograms_for_codes h_codes ↔
      suggest_pictograms_for_codes h_codes = []) := by
  have h1 := suggest_eq_nil_of_clean_nil (clean_suggest_nil h_codes)
  refine ⟨h1, ?_⟩
  rw [h1]
  exact eq_comm

/-- C5 (corrected): suppression safety fails as stated. For the input
`["H300", "H302"]` the irritant pictogram GHS07 is suppressed (H302 maps to
it, yet it is absent from the output), while H302's *sole* pictogram mapping
is GHS07 — contradicting "there exists no hazard code whose sole mapping is
the irritant pictogram". -/
theorem suppression_safety_ce :
    "GHS07" ∉ suggest_pictograms_for_codes ["H300", "H302"] ∧
    "GHS07" ∈ suggestedFromClean (cleanHCodes ["H300", "H302"]) ∧
    ∃ c ∈ cleanHCodes ["H300", "H302"], pictogramsFor c = ["GHS07"] := by decide

/-- C5 (amended): whenever GHS07 is suppressed — some input code maps to it
yet it is absent from the output — a dominating pictogram that triggered the
suppression (corrosion GHS05, acute-toxicity GHS06, or health-hazard GHS08)
is present in the output. (The claim's original conclusion is unattainable:
every code in the GHS07 row has GHS07 as its sole mapping.) -/
theorem ghs07_suppression_dominated (h_codes : List String)
    (htrig : "GHS07" ∈ suggestedFromClean (cleanHCodes h_codes))
    (hsup : "GHS07" ∉ suggest_pictograms_for_codes h_codes) :
    "GHS05" ∈ suggest_pictograms_for_codes h_codes ∨
    "GHS06" ∈ suggest_pictograms_for_codes h_codes ∨
    "GHS08" ∈ suggest_pictograms_for_codes h_codes := by
  unfold suggest_pictograms_for_codes at hsup ⊢
  rw [List.mem_insertionSort] at hsup
  by_cases h2 : "GHS07" ∈ pictRule2 (cleanHCodes h_codes)
      (pictRule1 (suggestedFromClean (cleanHCodes h_codes)))
  · have h8 := pictRule3_removed_mem h2 hsup
    refine Or.inr (Or.inr ?_)
    rw [List.mem_insertionSort]
    exact mem_pictRule3_of_ne (by decide) h8
  · by_cases h1 : "GHS07" ∈ pictRule1 (suggestedFromClean (cleanHCodes h_codes))
    · have h5 := pictRule2_removed_mem h1 h2
      refine Or.inl ?_
      rw [List.mem_insertionSort]
      exact mem_pictRule3_of_ne (by decide) (mem_pictRule2_of_ne (by decide) h5)
    · have h6 := pictRule1_removed_mem htrig h1
      refine Or.inr (Or.inl ?_)
      rw [List.mem_insertionSort]
      exact mem_pictRule3_of_ne (by decide)
        (mem_pictRule2_of_ne (by decide) (mem_pictRule1_of_ne (by decide) h6))

/-- Witness for the amended C5 at the concrete input `["H300", "H302"]`:
GHS07 is suppressed there, and the theorem yields a dominating pictogram. -/
theorem ghs07_suppression_dominated_witness :
    "GHS05" ∈ suggest_pictograms_for_codes ["H300", "H302"] ∨
    "GHS06" ∈ suggest_pictograms_for_codes ["H300", "H302"] ∨
    "GHS08" ∈ suggest_pictograms_for_codes ["H300", "H302"] :=
  ghs07_suppression_dominated ["H300", "H302"] (by decide) (by decide)

/-- The outcome's suggested signal word is the resolved required word. -/
theorem suggested_signal_word_eq (simOK : String → String → Bool) (sw : String)
    (h p picts : List String) :
    (validate_ghs_label simOK sw h p picts).suggested_signal_word =
      some (requiredOf simOK h) := rfl

/-- The outcome's signal-word flag is the comparison of the supplied word
with the resolved one. -/
theorem signal_word_valid_eq (simOK : String → String → Bool) (sw : String)
    (h p picts : List String) :
    (validate_ghs_label simOK sw h p picts).signal_word_valid =
      (sw == requiredOf simOK h) := rfl

/-- The outcome's issue list, decomposed into the three conditional blocks
the orchestrator appends in order. -/
theorem validate_ghs_label_issues (simOK : String → String → Bool) (sw : String)
    (h p picts : List String) :
    (validate_ghs_label simOK sw h p picts).issues =
      (if (validate_hazard_statements simOK h).2 = true then
        [{ code := "HAZARD_STATEMENTS", severity := ValidationSeverity.warning,
           message := "Some hazard statements might be non-standard or misspelled",
           suggestion := some "Verify against GHS Rev 11" }] else []) ++
      (if (sw == requiredOf simOK h) = true then [] else
        [{ code := "SIGNAL_WORD", severity := ValidationSeverity.critical,
           message := "Signal word should be '" ++ requiredOf simOK h ++
             "' based on hazards, found '" ++ sw ++ "'",
           suggestion := some ("Change signal word to " ++ requiredOf simOK h) }]) ++
      (if "H314" ∈ cleanHCodes (validate_hazard_statements simOK h).1 ∧
          ¬ p.any (fun q => strContains q "P280") then
        [{ code := "H314", severity := ValidationSeverity.error,
           message := "Corrosive hazard H314 requires P280 (protective equipment)",
           suggestion := some "Add P280" }] else []) := rfl

/-- C2: the resolved signal word is "Danger" exactly when the cleaned
hazard-code set meets the critical tier (H300, H310, H330, H314, H318, H340,
H350, H360, H370) and "Warning" otherwise; a mismatching supplied word makes
`signal_word_valid` false and produces exactly one critical-severity issue,
carrying the suggested replacement. -/
theorem signal_word_resolution (simOK : String → String → Bool) (sw : String)
    (h p picts : List String) (required : String)
    (hreq : required =
      (if ∃ c ∈ cleanHCodes (validate_hazard_statements simOK h).1, c ∈ critical_h
       then "Danger" else "Warning")) :
    (validate_ghs_label simOK sw h p picts).suggested_signal_word = some required ∧
    (sw ≠ required →
      (validate_ghs_label simOK sw h p picts).signal_word_valid = false ∧
      ((validate_ghs_label simOK sw h p picts).issues.filter
          (fun i => i.severity == ValidationSeverity.critical)).length = 1 ∧
      ∀ i ∈ (validate_ghs_label simOK sw h p picts).issues,
        i.severity = ValidationSeverity.critical →
          i.suggestion = some ("Change signal word to " ++ required)) := by
  have hrq : required = requiredOf simOK h := hreq
  subst hrq
  refine ⟨suggested_signal_word_eq simOK sw h p picts, fun hne => ?_⟩
  have hbeq : (sw == requiredOf simOK h) = false := beq_eq_false_iff_ne.2 hne
  refine ⟨by rw [signal_word_valid_eq, hbeq], ?_, ?_⟩
  · rw [validate_ghs_label_issues, hbeq]
    by_cases h1 : (validate_hazard_statements simOK h).2 = true
    · by_cases h2 : "H314" ∈ cleanHCodes (validate_hazard_statements simOK h).1 ∧
          ¬ p.any (fun q => strContains q "P280")
      · rw [if_pos h1, if_pos h2]; rfl
      · rw [if_pos h1, if_neg h2]; rfl
    · by_cases h2 : "H314" ∈ cleanHCodes (validate_hazard_statements simOK h).1 ∧
          ¬ p.any (fun q => strContains q "P280")
      · rw [if_neg h1, if_pos h2]; rfl
      · rw [if_neg h1, if_neg h2]; rfl
  · rw [validate_ghs_label_issues, hbeq]
    intro i hi hcrit
    rcases List.mem_append.1 hi with hi | hi
    · rcases List.mem_append.1 hi with hi | hi
      · split at hi
        · rw [List.mem_singleton] at hi
          subst hi
          exact absurd hcrit (by decide)
        · exact absurd hi (List.not_mem_nil _)
      · rw [if_neg (by decide)] at hi
        rw [List.mem_singleton] at hi
        subst hi
        rfl
    · split at hi
      · rw [List.mem_singleton] at hi
        subst hi
        exact absurd hcrit (by decide)
      · exact absurd hi (List.not_mem_nil _)

/-- Witness for C2 at the spec's scenario: hazard codes H314 and H332 with
supplied signal word "Warning" resolve to "Danger", an invalid signal word
and exactly one critical issue suggesting the replacement. -/
theorem signal_word_resolution_witness :
    (validate_ghs_label (fun _ _ => true) "Warning"
        ["H314: Causes severe skin burns and eye damage", "H332: Harmful if inhaled"]
        [] []).suggested_signal_word = some "Danger" ∧
    (validate_ghs_label (fun _ _ => true) "Warning"
        ["H314: Causes severe skin burns and eye damage", "H332: Harmful if inhaled"]
        [] []).signal_word_valid = false ∧
    ((validate_ghs_label (fun _ _ => true) "Warning"
        ["H314: Causes severe skin burns and eye damage", "H332: Harmful if inhaled"]
        [] []).issues.filter
      (fun i => i.severity == ValidationSeverity.critical)).length = 1 := by
  have hmain := signal_word_resolution (fun _ _ => true) "Warning"
    ["H314: Causes severe skin burns and eye damage", "H332: Harmful if inhaled"]
    [] [] "Danger" (by decide)
  have hrest := hmain.2 (by decide)
  exact ⟨hmain.1, hrest.1, hrest.2.1⟩

/-- The guard's issue dictionaries are the orchestrator's issues (validated
against the fixed word "Danger") projected to code/severity-value/message. -/
theorem guard_issues_eq (simOK : String → String → Bool)
    (parseElapsedDays : String → Option ℤ) (product_name : String)
    (h p picts : List String) (sds_date : String) :
    (hazlabel_guard simOK parseElapsedDays product_name h p picts sds_date).issues =
      (validate_ghs_label simOK "Danger" h p picts).issues.map
        (fun i => { code := i.code, severity := i.severity.value,
                    message := i.message : GuardIssue }) := rfl

/-- C10: `hazlabel_guard` accepts no signal-word input and validates against
the fixed placeholder "Danger"; consequently, whenever the validated hazard
codes contain no critical-tier code, the guard's output contains a
critical-severity SIGNAL_WORD issue whose message suggests "Warning",
independent of whatever signal word was actually extracted for the label. -/
theorem guard_fixed_danger_issue (simOK : String → String → Bool)
    (parseElapsedDays : String → Option ℤ) (product_name : String)
    (h p picts : List String) (sds_date : String)
    (hcrit : ∀ c ∈ cleanHCodes (validate_hazard_statements simOK h).1, c ∉ critical_h) :
    ∃ i ∈ (hazlabel_guard simOK parseElapsedDays product_name h p picts sds_date).issues,
      i.code = "SIGNAL_WORD" ∧ i.severity = "critical" ∧
      i.message = "Signal word should be 'Warning' based on hazards, found 'Danger'" := by
  have hreq : requiredOf simOK h = "Warning" := by
    unfold requiredOf
    rw [if_neg]
    rintro ⟨c, hc, hmem⟩
    exact hcrit c hc hmem
  rw [guard_issues_eq, validate_ghs_label_issues, hreq]
  have hb : ({ code := "SIGNAL_WORD", severity := ValidationSeverity.critical,
               message := "Signal word should be '" ++ "Warning" ++
                 "' based on hazards, found '" ++ "Danger" ++ "'",
               suggestion := some ("Change signal word to " ++ "Warning") } :
        ValidationIssue) ∈
      (if (("Danger" : String) == "Warning") = true then ([] : List ValidationIssue) else
        [{ code := "SIGNAL_WORD", severity := ValidationSeverity.critical,
           message := "Signal word should be '" ++ "Warning" ++
             "' based on hazards, found '" ++ "Danger" ++ "'",
           suggestion := some ("Change signal word to " ++ "Warning") }]) := by
    rw [if_neg (by decide)]
    exact List.mem_singleton.2 rfl
  exact ⟨_, List.mem_map.2
      ⟨_, List.mem_append.2 (Or.inl (List.mem_append.2 (Or.inr hb))), rfl⟩,
    by decide, by decide, by decide⟩

/-- Witness for C10 at a concrete non-critical input (H225): the guard emits
the critical SIGNAL_WORD issue suggesting "Warning". -/
theorem guard_fixed_danger_issue_witness :
    ∃ i ∈ (hazlabel_guard (fun _ _ => true) (fun _ => none) "X"
        ["H225: Highly flammable liquid and vapor"] [] [] "").issues,
      i.code = "SIGNAL_WORD" ∧ i.severity = "critical" ∧
      i.message = "Signal word should be 'Warning' based on hazards, found 'Danger'" :=
  guard_fixed_danger_issue (fun _ _ => true) (fun _ => none) "X"
    ["H225: Highly flammable liquid and vapor"] [] [] "" (by decide)

/-- C8: `validate_sds_age` never raises — it is total, a missing (empty) or
unparsable date yields the not-outdated default with null warning and null
years_old, and a successfully parsed date yields `is_outdated = true` with a
non-null warning exactly when the elapsed time exceeds 5 (365.25-day) years;
when not outdated the warning is null and `years_old` is still populated. -/
theorem sds_age_advisory (parseElapsedDays : String → Option ℤ) (s : String) :
    ((s = "" ∨ parseElapsedDays s = none) →
      validate_sds_age parseElapsedDays s =
        { is_outdated := false, warning := none, years_old := none }) ∧
    (∀ d : ℤ, s ≠ "" → parseElapsedDays s = some d →
      (((validate_sds_age parseElapsedDays s).is_outdated = true ∧
          (validate_sds_age parseElapsedDays s).warning ≠ none) ↔
        (d : ℚ) / (365.25 : ℚ) > 5) ∧
      (validate_sds_age parseElapsedDays s).years_old ≠ none ∧
      ((validate_sds_age parseElapsedDays s).is_outdated = false →
        (validate_sds_age parseElapsedDays s).warning = none)) := by
  constructor
  · rintro (hs | hp)
    · simp [validate_sds_age, hs]
    · by_cases hs : s = ""
      · simp [validate_sds_age, hs]
      · simp [validate_sds_age, hs, hp]
  · intro d hs hd
    simp only [validate_sds_age, if_neg hs, hd]
    cases hgt : decide ((d : ℚ) / (365.25 : ℚ) > 5) with
    | false =>
      have hne := of_decide_eq_false hgt
      simp [hgt, hne]
    | true =>
      have hlt := of_decide_eq_true hgt
      simp [hgt, hlt]

/-- Witness for C8: a parse yielding 3000 elapsed days (the spec's
"2015-06-12 evaluated far in the future") is outdated with a warning. -/
theorem sds_age_advisory_witness :
    (validate_sds_age (fun s => if s = "2015-06-12" then some 3000 else none)
        "2015-06-12").is_outdated = true ∧
    (validate_sds_age (fun s => if s = "2015-06-12" then some 3000 else none)
        "2015-06-12").warning ≠ none := by
  have h := (sds_age_advisory (fun s => if s = "2015-06-12" then some 3000 else none)
    "2015-06-12").2 3000 (by decide) (by decide)
  exact h.1.mpr (by norm_num)

/-- Every single-label render ends with the supplier-info footer instruction,
whatever the truncation loops omitted before it. -/
theorem renderLabel_hasFooter (ctx : RenderCtx) (ghs : GhsData) :
    hasFooterOp (renderLabel ctx ghs) = true := by
  unfold renderLabel hasFooterOp
  simp [List.any_append, isFooterOp]

/-- Footer presence for every label the bulk loop renders, at any counter. -/
theorem bulkRenderAux_hasFooter (strWidth : String → String → ℚ → ℚ)
    (cleanText : String → String) (geom : PageGeom) :
    ∀ (chems : List (Option GhsData)) (n : ℕ) (ops : List DrawOp),
      ops ∈ bulkRenderAux strWidth cleanText geom chems n → hasFooterOp ops = true := by
  intro chems
  induction chems with
  | nil =>
    intro n ops hmem
    exact absurd hmem (List.not_mem_nil _)
  | cons c rest ih =>
    intro n ops hmem
    cases c with
    | none => exact ih n ops hmem
    | some g =>
      unfold bulkRenderAux at hmem
      rcases List.mem_cons.1 hmem with rfl | hmem
      · exact renderLabel_hasFooter _ _
      · exact ih (n + 1) ops hmem

/-- C9: for every label instance the layout engine renders (chemicals without
resolvable data are skipped, not rendered blank), the emitted drawing
instructions contain the supplier-info footer block, regardless of how many
hazard or precautionary statement lines the space-pressure breaks omitted. -/
theorem footer_always_rendered (strWidth : String → String → ℚ → ℚ)
    (cleanText : String → String) (geom : PageGeom) (chemicals : List (Option GhsData))
    (ops : List DrawOp) (hops : ops ∈ bulkRender strWidth cleanText geom chemicals) :
    hasFooterOp ops = true := by
  unfold bulkRender at hops
  exact bulkRenderAux_hasFooter strWidth cleanText geom chemicals 0 ops hops

/-- Witness for C9 at a concrete one-chemical batch. -/
theorem footer_always_rendered_witness :
    hasFooterOp ((bulkRender (fun _ _ _ => 0) (fun s => s)
        ⟨792, 36, 36, 9, 0, 2, 10, 288, 144, 1⟩
        [some ⟨some "Acetone", some "Danger", ["GHS02"],
          ["H225: Highly flammable liquid and vapor"],
          ["P210: Keep away from heat."], some "Acme Chemical"⟩]).headD []) = true :=
  footer_always_rendered (fun _ _ _ => 0) (fun s => s)
    ⟨792, 36, 36, 9, 0, 2, 10, 288, 144, 1⟩
    [some ⟨some "Acetone", some "Danger", ["GHS02"],
      ["H225: Highly flammable liquid and vapor"],
      ["P210: Keep away from heat."], some "Acme Chemical"⟩] _
    (by simp [bulkRender, bulkRenderAux])
